import Mathlib

/-!
# Verification of the report-acquisition / retrieval pipeline

Shallow embedding of the cache-first report pipeline:
* `VectorStore` (vector_store.py): metadata catalog, FAISS index wrapper,
  ingestion (`add_report`), cache lookups, brokerage-report cache queries,
  similarity search with company post-filter, and `reset_database`.
* `CompanyAnalyzer` (company_analyzer.py): identity resolution
  (`get_corp_code`), lookback-window extraction (`_extract_time_range`),
  paginated report listing (`get_reports`), cache-first document fetch
  (`download_report`), and the per-session pipeline (`analyze_company`).

External collaborators (HTTP registry, embedding model, PDF/XML extraction,
LLM calls, the brokerage crawler) are modelled as explicit function or
`Except` parameters, matching how the source treats them as unreliable
boundaries.  Python dicts keyed by strings are modelled as insertion-ordered
association lists; Python string truthiness is nonemptiness; `str.upper`,
`str.lower`, `str.strip`, `str.startswith`, string comparison and the `in`
substring test are modelled by character-list functions defined below with
the same semantics.
-/

set_option maxRecDepth 10000

namespace RagPipeline

/-! ## String helpers (Python semantics) -/

/-- Python substring test: the characters of the needle occur contiguously in
the hay (the needle may be empty). -/
def strContains (hay needle : String) : Bool :=
  hay.data.tails.any (fun t => needle.data.isPrefixOf t)

/-- Python `str.upper`, character by character. -/
def pyUpper (s : String) : String := String.mk (s.data.map Char.toUpper)

/-- Python `str.lower`, character by character. -/
def pyLower (s : String) : String := String.mk (s.data.map Char.toLower)

/-- Python `str.startswith`. -/
def startsWithStr (s pre : String) : Bool := pre.data.isPrefixOf s.data

/-- Python `str.strip`: drop whitespace from both ends. -/
def pyStrip (s : String) : String :=
  String.mk (((s.data.dropWhile Char.isWhitespace).reverse.dropWhile
    Char.isWhitespace).reverse)

/-! ## VectorStore data model -/

/-- One catalog record (`self.metadata[rcept_no]` as written by
`VectorStore.add_report`; the volatile `added_at` timestamp is omitted). -/
structure ReportMeta where
  report_name : String
  company_name : String
  date : String
  report_type : String
  num_chunks : Nat
  content_length : Nat
  full_content : String
  industry_keywords : List String
deriving DecidableEq, Repr

/-- One document held by the FAISS docstore: its page content plus the
denormalized chunk metadata attached in `add_report`.  `doc_type` models the
`"type"` metadata key, which is only ever set (to `"init"`) on the synthetic
initialization document; all other metadata keys default to the values used
when absent (the dict-get-with-default semantics). -/
structure IndexDoc where
  page_content : String
  doc_type : String
  rcept_no : String
  report_name : String
  company_name : String
  report_date : String
  report_type : String
  chunk_index : Nat
  total_chunks : Nat
deriving DecidableEq, Repr

/-- The synthetic initialization document inserted by
`_load_or_create_vectorstore` when no prior index exists:
`Document(page_content="초기 문서", metadata=dict(type="init"))`. -/
def initDoc : IndexDoc :=
  { page_content := "초기 문서", doc_type := "init", rcept_no := "", report_name := ""
    company_name := "", report_date := "", report_type := "", chunk_index := 0
    total_chunks := 0 }

/-- Model of `_load_or_create_vectorstore` with no prior on-disk state. -/
def emptyVectorstore : List IndexDoc := [initDoc]

/-- The in-memory state of a `VectorStore`: the metadata catalog (an
insertion-ordered map from document id to record, as a Python dict) and the
vector index contents (one entry per embedded document, in insertion order). -/
structure VSState where
  metadata : List (String × ReportMeta)
  index : List IndexDoc
deriving DecidableEq, Repr

/-- A freshly constructed `VectorStore` with no prior on-disk state:
`_load_metadata` returns an empty dict and `_load_or_create_vectorstore`
creates the index holding only the synthetic initialization document. -/
def freshState : VSState := { metadata := [], index := emptyVectorstore }

/-- Dict lookup on the ordered association list. -/
def metaLookup (m : List (String × ReportMeta)) (k : String) : Option ReportMeta :=
  match m with
  | [] => none
  | (k0, v) :: rest => if k0 = k then some v else metaLookup rest k

/-- Dict assignment `m[k] = v`: replaces in place (keeping the position of
the key) when the key is present, appends at the end otherwise. -/
def metaInsert (m : List (String × ReportMeta)) (k : String) (v : ReportMeta) :
    List (String × ReportMeta) :=
  match m with
  | [] => [(k, v)]
  | (k0, v0) :: rest =>
    if k0 = k then (k0, v) :: rest else (k0, v0) :: metaInsert rest k v

/-- Model of `VectorStore.check_report_exists`: membership of the id in the catalog. -/
def check_report_exists (st : VSState) (rcept_no : String) : Bool :=
  (metaLookup st.metadata rcept_no).isSome

/-- Model of `VectorStore.get_report_from_cache`: the stored full text, or `none` when
the id is absent. -/
def get_report_from_cache (st : VSState) (rcept_no : String) : Option String :=
  (metaLookup st.metadata rcept_no).map (fun info => info.full_content)

/-- The chunk documents built in `add_report`: one per chunk, with
denormalized provenance metadata and positional `chunk_index`. -/
def chunkDocs (rcept_no report_name company_name report_date report_type : String)
    (chunks : List String) : List IndexDoc :=
  chunks.enum.map (fun p =>
    { page_content := p.2, doc_type := "", rcept_no := rcept_no
      report_name := report_name, company_name := company_name
      report_date := report_date, report_type := report_type
      chunk_index := p.1, total_chunks := chunks.length })

/-- Model of `VectorStore.add_report`: split the content with the text splitter
(`split` models `RecursiveCharacterTextSplitter.split_text`), append one
embedded document per chunk to the index, then assign the catalog record
`self.metadata[rcept_no] = dict(...)` (a plain dict assignment). -/
def add_report (split : String → List String) (st : VSState)
    (rcept_no report_name company_name report_date content report_type : String)
    (industry_keywords : List String) : VSState :=
  let chunks := split content
  { metadata := metaInsert st.metadata rcept_no
      { report_name := report_name, company_name := company_name
        date := report_date, report_type := report_type
        num_chunks := chunks.length, content_length := content.length
        full_content := content, industry_keywords := industry_keywords }
    index := st.index ++
      chunkDocs rcept_no report_name company_name report_date report_type chunks }

/-- Model of `VectorStore.reset_database`: clear the metadata dict, delete the on-disk
index files, and recreate the vectorstore via `_load_or_create_vectorstore`
(which reinserts the synthetic initialization document); returns `True`. -/
def reset_database (st : VSState) : VSState × Bool :=
  ((fun _ => ({ metadata := [], index := emptyVectorstore }, true)) st)

/-- Sum of the `num_chunks` fields over all catalog records. -/
def sumChunks (st : VSState) : Nat :=
  (st.metadata.map (fun e => e.2.num_chunks)).sum

/-- Total number of entries held by the vector index. -/
def totalEntries (st : VSState) : Nat := st.index.length

/-! ## Brokerage-report cache queries (`get_naver_reports_from_cache`) -/

/-- One element of the list returned by `get_naver_reports_from_cache`
(the `rcept_no` key duplicates `url` and is omitted). -/
structure CachedReport where
  name : String
  date : String
  content : String
  url : String
deriving DecidableEq, Repr

/-- The inner `parse_date` sort key of `get_naver_reports_from_cache`: empty
and `"날짜미상"` (date unknown) map to `"00.00.00"`; every other string is
used unchanged (the `try` body cannot raise). -/
def parse_date (date_str : String) : String :=
  if date_str = "" ∨ date_str = "날짜미상" then "00.00.00" else date_str

/-- Lexicographic string order of Python on code points, on character lists. -/
def charListLe : List Char → List Char → Bool
  | [], _ => true
  | _ :: _, [] => false
  | a :: as, b :: bs =>
    if a.toNat < b.toNat then true
    else if b.toNat < a.toNat then false
    else charListLe as bs

/-- String comparison of Python: lexicographic by code point. -/
def strLe (a b : String) : Bool := charListLe a.data b.data

/-- Sort relation of `cached_reports.sort(key=parse_date..., reverse=True)`:
descending lexicographic comparison of the parsed date keys. -/
def dateDesc (a b : CachedReport) : Prop :=
  strLe (parse_date b.date) (parse_date a.date) = true

instance : DecidableRel dateDesc := fun a b =>
  inferInstanceAs (Decidable (strLe (parse_date b.date) (parse_date a.date) = true))

/-- Keyword match of the `NAVER_INDUSTRY` branch: some keyword occurs
(lower-cased) inside the report name, or the tag list is nonempty and
contains the keyword verbatim. -/
def keywordMatched (industry_keywords : List String) (report_name : String)
    (industry_tags : List String) : Bool :=
  industry_keywords.any (fun keyword =>
    strContains (pyLower report_name) (pyLower keyword) ||
    (!industry_tags.isEmpty && industry_tags.contains keyword))

/-- The cached-report view of one catalog entry. -/
def cachedOf (e : String × ReportMeta) : CachedReport :=
  { name := e.2.report_name, date := e.2.date, content := e.2.full_content
    url := e.1 }

/-- The selection stage of `get_naver_reports_from_cache`: the catalog
entries whose id starts with the requested type and whose fields match the
filter (exact company name for `NAVER_COMPANY`, keyword match for
`NAVER_INDUSTRY` with a nonempty keyword list), in catalog order. -/
def naverSelect (metadata : List (String × ReportMeta))
    (company_name : Option String) (report_type : String)
    (industry_keywords : List String) : List CachedReport :=
  if report_type = "NAVER_COMPANY" then
    (metadata.filter (fun e =>
      startsWithStr e.1 report_type && company_name == some e.2.company_name)).map cachedOf
  else if report_type = "NAVER_INDUSTRY" && !industry_keywords.isEmpty then
    (metadata.filter (fun e =>
      startsWithStr e.1 report_type &&
      keywordMatched industry_keywords e.2.report_name e.2.industry_keywords)).map cachedOf
  else []

/-- Model of `VectorStore.get_naver_reports_from_cache`: select the matching catalog
entries, then (when any matched) sort them descending by the `parse_date`
key.  The stable Python `list.sort` is modelled by `List.insertionSort`. -/
def get_naver_reports_from_cache (metadata : List (String × ReportMeta))
    (company_name : Option String) (report_type : String)
    (industry_keywords : List String) : List CachedReport :=
  let cached := naverSelect metadata company_name report_type industry_keywords
  if cached.isEmpty then [] else cached.insertionSort dateDesc

/-! ## Similarity search (`search_similar_reports`) -/

/-- Model of `VectorStore.search_similar_reports`: request `k*3` ranked entries from
the index (`simSearch` models `FAISS.similarity_search_with_score`; the
score type is abstract), then, when a nonempty company filter is given, keep
only entries whose denormalized `company_name` matches it case-insensitively
and truncate to `k`; otherwise truncate the raw ranked list to `k`. -/
def search_similar_reports (simSearch : String → Nat → List (IndexDoc × Int))
    (query : String) (company_name : Option String) (k : Nat) :
    List (IndexDoc × Int) :=
  let results := simSearch query (k * 3)
  match company_name with
  | some cn =>
    if cn ≠ "" then
      (results.filter (fun p => pyUpper p.1.company_name == pyUpper cn)).take k
    else
      results.take k
  | none => results.take k

/-! ## Lookback-window extraction (`_extract_time_range`) -/

/-- Outcome of the classifier call made by `_extract_time_range`: the
`generate` call raised, the response contained no JSON object, or a JSON
object was parsed whose optional integer `years` field is given.  (A raised
`json.loads` error is also a `failure`: the whole body sits in one `try`.) -/
inductive ClassifierOutcome where
  | failure : ClassifierOutcome
  | noJson : ClassifierOutcome
  | parsed : Option Int → ClassifierOutcome
deriving DecidableEq, Repr

/-- Model of `CompanyAnalyzer._extract_time_range`: on a parsed JSON object take the
`years` field (default 3), clamp with `min ... 10` then `max ... 1`; on a
missing JSON object or any raised exception return the default 3. -/
def extract_time_range (c : ClassifierOutcome) : Int :=
  match c with
  | ClassifierOutcome.failure => 3
  | ClassifierOutcome.noJson => 3
  | ClassifierOutcome.parsed y => max (min (y.getD 3) 10) 1

/-! ## Paginated report listing (`get_reports`) -/

/-- One row of the DART `list.json` response. -/
structure DartReport where
  report_nm : String
  rcept_dt : String
  rcept_no : String
deriving DecidableEq, Repr

/-- One page of the DART `list.json` response: its `status` field and its
`list` field (defaulting to empty when absent). -/
structure PageResponse where
  status : String
  list : List DartReport
deriving DecidableEq, Repr

/-- A report name matches when some requested type occurs in it
(`report_type in report_name`). -/
def reportMatches (report_types : List String) (r : DartReport) : Bool :=
  report_types.any (fun t => strContains r.report_nm t)

/-- Whether a page contains a report of one of the requested types (the
early-exit test of the pagination loop). -/
def pageHasTarget (report_types : List String) (page : List DartReport) : Bool :=
  page.any (reportMatches report_types)

/-- Page limit `max_pages = 10` of `get_reports`. -/
def max_pages : Nat := 10

/-- The `while page_no <= max_pages` loop of `get_reports`, fetching one page
per iteration (`registry` models the `list.json` call for a fixed company and
window).  `remaining` counts the page numbers still allowed
(`max_pages - page_no + 1`), `acc` is `all_reports`, and the second component
counts the network fetches performed.  The loop stops early on a non-`"000"`
status, an empty page, or a page containing a requested report type. -/
def getReportsLoop (registry : Nat → PageResponse) (report_types : List String) :
    Nat → Nat → List DartReport → Nat → List DartReport × Nat
  | 0, _, acc, fetches => (acc, fetches)
  | remaining + 1, page_no, acc, fetches =>
    if (registry page_no).status = "000" then
      if (registry page_no).list.isEmpty then (acc, fetches + 1)
      else if pageHasTarget report_types (registry page_no).list then
        (acc ++ (registry page_no).list, fetches + 1)
      else
        getReportsLoop registry report_types remaining (page_no + 1)
          (acc ++ (registry page_no).list) (fetches + 1)
    else (acc, fetches + 1)

/-- Model of `CompanyAnalyzer.get_reports` (pagination and filtering, for fixed
resolved report types and window): run the page loop from page 1, then keep
only the reports whose name matches a requested type.  Also returns the
number of pages fetched. -/
def get_reports (registry : Nat → PageResponse) (report_types : List String) :
    List DartReport × Nat :=
  let r := getReportsLoop registry report_types max_pages 1 [] 0
  (r.1.filter (reportMatches report_types), r.2)

/-! ## Cache-first document fetch (`download_report`) -/

/-- Result of one `download_report` call: the extracted text, the vector
store state afterwards, and how many network fetches and catalog/index
writes the call performed. -/
structure DownloadResult where
  text : String
  state : VSState
  fetches : Nat
  writes : Nat
deriving DecidableEq, Repr

/-- The cache-miss path of `download_report`: fetch the raw document from the
registry and extract its text (`fetchExtract` composes the `document.xml`
call with `_extract_text_from_xml`), then, if the text and all three metadata
arguments are nonempty (Python truthiness), store the document via
`add_report` (whose own failures are swallowed; the model keeps the write). -/
def downloadMiss (split : String → List String) (fetchExtract : String → String)
    (st : VSState) (rcept_no company_name report_name report_date : String) :
    DownloadResult :=
  if fetchExtract rcept_no ≠ "" ∧ company_name ≠ "" ∧ report_name ≠ "" ∧
      report_date ≠ "" then
    { text := fetchExtract rcept_no
      state := add_report split st rcept_no report_name company_name report_date
        (fetchExtract rcept_no) "공시보고서" []
      fetches := 1, writes := 1 }
  else
    { text := fetchExtract rcept_no, state := st, fetches := 1, writes := 0 }

/-- Model of `CompanyAnalyzer.download_report`: if the catalog holds the id and the
stored text is nonempty, return it with no network call and no write;
otherwise run the cache-miss path. -/
def download_report (split : String → List String) (fetchExtract : String → String)
    (st : VSState) (rcept_no company_name report_name report_date : String) :
    DownloadResult :=
  let cached :=
    if check_report_exists st rcept_no then get_report_from_cache st rcept_no
    else none
  match cached with
  | some c =>
    if c ≠ "" then { text := c, state := st, fetches := 0, writes := 0 }
    else downloadMiss split fetchExtract st rcept_no company_name report_name report_date
  | none => downloadMiss split fetchExtract st rcept_no company_name report_name report_date

/-! ## Identity resolution (`get_corp_code`) -/

/-- One `<list>` entry of the DART `CORPCODE.xml` registry (entries with a
missing name or code element are skipped while scanning; a missing stock
code element reads as the empty string). -/
structure CorpEntry where
  corp_name : String
  corp_code : String
  stock_code : String
deriving DecidableEq, Repr

/-- Append an entry unless one with the same `corp_code` was already
collected (the duplicate guard of both search stages). -/
def dedupAdd (acc : List CorpEntry) (c : CorpEntry) : List CorpEntry :=
  if acc.any (fun e => e.corp_code == c.corp_code) then acc else acc ++ [c]

/-- The exact (case-insensitive) matches a single search variation collects
from the registry, deduplicated by corp code in registry order. -/
def exactMatchesFor (registry : List CorpEntry) (variation : String) :
    List CorpEntry :=
  registry.foldl (fun acc c =>
    if pyUpper c.corp_name == pyUpper variation then dedupAdd acc c else acc) []

/-- Stage 1 of `get_corp_code`: try the variations in order and stop at the
first one that collects any exact match (`if found_count > 0: break`). -/
def exactSearch (registry : List CorpEntry) : List String → List CorpEntry
  | [] => []
  | v :: vs =>
    let found := exactMatchesFor registry v
    if found.isEmpty then exactSearch registry vs else found

/-- Stage 2 of `get_corp_code`: collect, over all variations (no early
stop), the registry entries whose upper-cased name contains the upper-cased
variation, deduplated by corp code across the whole accumulation. -/
def containsSearch (registry : List CorpEntry) (variations : List String) :
    List CorpEntry :=
  variations.foldl (fun acc v =>
    registry.foldl (fun acc2 c =>
      if strContains (pyUpper c.corp_name) (pyUpper v) then dedupAdd acc2 c else acc2) acc) []

/-- An entry carries a ticker when its stock code is truthy and nonblank
(`c[2] and c[2].strip()`). -/
def hasTicker (c : CorpEntry) : Bool :=
  c.stock_code ≠ "" && pyStrip c.stock_code ≠ ""

/-- The selection used by both stages: the first collected entry carrying a
ticker, else the first collected entry. -/
def pickPreferTicker (ms : List CorpEntry) : Option CorpEntry :=
  match ms.filter hasTicker with
  | r :: _ => some r
  | [] => ms.head?

/-- Model of `CompanyAnalyzer.get_corp_code` for a fixed variation list (the
output of the name-variant suggester, which always contains the original name):
exact-match stage first, then the containment fallback, `none` (the
company-not-found outcome) when both stages collect nothing. -/
def get_corp_code (registry : List CorpEntry) (search_variations : List String) :
    Option CorpEntry :=
  let ex := exactSearch registry search_variations
  if ex.isEmpty then
    let cm := containsSearch registry search_variations
    if cm.isEmpty then none else pickPreferTicker cm
  else pickPreferTicker ex

/-! ## The analysis session (`analyze_company`) -/

/-- One supplementary DART report as produced by `get_analyst_reports`
followed by `download_multiple_reports`. -/
structure AdditionalReport where
  rcept_no : String
  name : String
  date : String
  content : String
deriving DecidableEq, Repr

/-- Save-block step 1: store the main report unless already cached. -/
def saveMain (split : String → List String) (st : VSState)
    (rcept_no report_name found_name report_date content : String) : VSState :=
  if check_report_exists st rcept_no then st
  else add_report split st rcept_no report_name found_name report_date content
    "공시보고서" []

/-- Save-block step 2: store each supplementary DART report with a truthy id
and content that is not already cached. -/
def saveAdditional (split : String → List String) (st : VSState)
    (found_name : String) (adds : List AdditionalReport) : VSState :=
  adds.foldl (fun s a =>
    if a.rcept_no ≠ "" ∧ a.content ≠ "" ∧ check_report_exists s a.rcept_no = false then
      add_report split s a.rcept_no a.name found_name a.date a.content "공시보고서" []
    else s) st

/-- Save-block step 3: store each freshly crawled brokerage report with
truthy content under the id `prefix_hash(url)` (`urlHash` models the Python
`hash` builtin), with the industry keywords attached only for `NAVER_INDUSTRY`,
skipping ids already cached. -/
def saveNaver (split : String → List String) (urlHash : String → String)
    (st : VSState) (found_name : String) (industry_keywords : List String)
    (toSave : List (CachedReport × String)) : VSState :=
  toSave.foldl (fun s rp =>
    if rp.1.content ≠ "" then
      let idStr := rp.2 ++ "_" ++ urlHash rp.1.url
      let kws := if rp.2 = "NAVER_INDUSTRY" then industry_keywords else []
      if check_report_exists s idStr then s
      else add_report split s idStr rp.1.name found_name rp.1.date rp.1.content
        "공시보고서" kws
    else s) st

/-- The external collaborators of one analysis session, each fixed for the
session: the identity-resolution outcome, the classifier outcome, the DART
listing pages (for the resolved company and window), the resolved report
types, the text splitter, the fetch-and-extract function, the supplementary
DART reports collected in step 3-1, the question-derived industry keywords,
the two brokerage crawler calls (which may raise), the url hash, the ranked
similarity search over a given store state, and the answer-synthesis LLM
call (which may raise). -/
structure SessionEnv where
  corp : Option CorpEntry
  time_range : ClassifierOutcome
  registry : Nat → PageResponse
  report_types : List String
  split : String → List String
  fetchExtract : String → String
  additional : List AdditionalReport
  industry_keywords : List String
  crawler_company : Except Unit (List CachedReport)
  crawler_industry : Except Unit (List CachedReport)
  urlHash : String → String
  simSearch : VSState → String → Nat → List (IndexDoc × Int)
  llm_rag : Except Unit String

/-- The caller-visible fields of the result dict of a session. -/
structure SessionResult where
  success : Bool
  company_name : String
  error : Option String
  analysis : Option String
  naver_company : List CachedReport
  naver_industry : List CachedReport
deriving Repr

/-- Model of `CompanyAnalyzer.analyze_company`: resolve the company (failure returns
an unsuccessful result), list and filter reports (none found is fatal),
fetch the newest report cache-first (empty text is fatal), collect the two
brokerage report lists — each guarded by its own try/except, so a raising
crawler leaves the corresponding list empty and the session continues — run
the save block, retrieve the top 20 chunks filtered by the resolved name,
and synthesize the answer (an LLM failure degrades to an error text; an
empty retrieval degrades to a fixed notice); the result is then marked
successful. -/
def analyze_company (env : SessionEnv) (st : VSState) (user_query : String) :
    SessionResult × VSState :=
  match env.corp with
  | none =>
    ({ success := false, company_name := "", error := some "회사를 찾을 수 없습니다."
       analysis := none, naver_company := [], naver_industry := [] }, st)
  | some corp =>
    let found_name := corp.corp_name
    let _years := extract_time_range env.time_range
    match (get_reports env.registry env.report_types).1 with
    | [] =>
      ({ success := false, company_name := found_name
         error := some "보고서를 찾을 수 없습니다.", analysis := none
         naver_company := [], naver_industry := [] }, st)
    | latest :: _ =>
      let dl := download_report env.split env.fetchExtract st latest.rcept_no
        found_name latest.report_nm latest.rcept_dt
      if dl.text = "" then
        ({ success := false, company_name := found_name
           error := some "보고서 내용을 읽을 수 없습니다.", analysis := none
           naver_company := [], naver_industry := [] }, dl.state)
      else
        let st1 := dl.state
        let cachedCompany :=
          get_naver_reports_from_cache st1.metadata (some found_name) "NAVER_COMPANY" []
        let companyPair :=
          if 3 ≤ cachedCompany.length then (cachedCompany.take 3, true)
          else
            match env.crawler_company with
            | Except.ok l => (l, false)
            | Except.error _ => ([], false)
        let cachedIndustry :=
          get_naver_reports_from_cache st1.metadata none "NAVER_INDUSTRY"
            env.industry_keywords
        let industryPair :=
          if 2 ≤ cachedIndustry.length then (cachedIndustry.take 2, true)
          else
            match env.crawler_industry with
            | Except.ok l => (l, false)
            | Except.error _ => ([], false)
        let toSave :=
          (if companyPair.1 ≠ [] ∧ companyPair.2 = false then
            companyPair.1.map (fun r => (r, "NAVER_COMPANY")) else []) ++
          (if industryPair.1 ≠ [] ∧ industryPair.2 = false then
            industryPair.1.map (fun r => (r, "NAVER_INDUSTRY")) else [])
        let st2 := saveMain env.split st1 latest.rcept_no latest.report_nm found_name
          latest.rcept_dt dl.text
        let st3 := saveAdditional env.split st2 found_name env.additional
        let st4 := saveNaver env.split env.urlHash st3 found_name
          env.industry_keywords toSave
        let relevant :=
          search_similar_reports (env.simSearch st4) user_query (some found_name) 20
        let analysis :=
          if relevant.isEmpty then "VectorDB에서 관련 내용을 찾지 못했습니다."
          else
            match env.llm_rag with
            | Except.ok t => t
            | Except.error _ => "분석 중 오류 발생"
        ({ success := true, company_name := found_name, error := none
           analysis := some analysis, naver_company := companyPair.1
           naver_industry := industryPair.1 }, st4)

/-! ## Helper lemmas about the catalog dictionary -/

theorem metaLookup_metaInsert_self (m : List (String × ReportMeta)) (k : String)
    (v : ReportMeta) : metaLookup (metaInsert m k v) k = some v := by
  induction m with
  | nil => simp [metaInsert, metaLookup]
  | cons e rest ih =>
    obtain ⟨k0, v0⟩ := e
    by_cases h : k0 = k
    · simp [metaInsert, metaLookup, h]
    · simp [metaInsert, metaLookup, h, ih]

theorem metaInsert_of_lookup_none (m : List (String × ReportMeta)) (k : String)
    (v : ReportMeta) (h : metaLookup m k = none) : metaInsert m k v = m ++ [(k, v)] := by
  induction m with
  | nil => simp [metaInsert]
  | cons e rest ih =>
    obtain ⟨k0, v0⟩ := e
    by_cases hk : k0 = k
    · simp [metaLookup, hk] at h
    · simp [metaLookup, hk] at h
      simp [metaInsert, hk, ih h]

theorem length_metaInsert_of_lookup_some (m : List (String × ReportMeta)) (k : String)
    (v v0 : ReportMeta) (h : metaLookup m k = some v0) :
    (metaInsert m k v).length = m.length := by
  induction m with
  | nil => simp [metaLookup] at h
  | cons e rest ih =>
    obtain ⟨k0, v0x⟩ := e
    by_cases hk : k0 = k
    · simp [metaInsert, hk]
    · simp [metaLookup, hk] at h
      simp [metaInsert, hk, ih h]

theorem totalEntries_add_report (split : String → List String) (st : VSState)
    (rcept_no report_name company_name report_date content report_type : String)
    (kws : List String) :
    totalEntries (add_report split st rcept_no report_name company_name report_date
      content report_type kws) = totalEntries st + (split content).length := by
  simp [add_report, totalEntries, chunkDocs, List.enum_length]

theorem sumChunks_add_report_of_not_exists (split : String → List String) (st : VSState)
    (rcept_no report_name company_name report_date content report_type : String)
    (kws : List String) (h : check_report_exists st rcept_no = false) :
    sumChunks (add_report split st rcept_no report_name company_name report_date
      content report_type kws) = sumChunks st + (split content).length := by
  have hnone : metaLookup st.metadata rcept_no = none := by
    cases hx : metaLookup st.metadata rcept_no with
    | none => rfl
    | some v => simp [check_report_exists, hx] at h
  simp [add_report, sumChunks, metaInsert_of_lookup_none _ _ _ hnone]

/-- A one-window splitter (used as concrete splitter in witnesses). -/
def oneChunk : String → List String := fun s => [s]

/-! ## Claim C7 — lookback window -/

/-- Claim C7: for every classifier outcome the derived lookback window is an
integer number of years in the interval from 1 to 10; an explicitly stated
period is clamped to at most 10 and at least 1, and on classifier failure,
on a response with no JSON object, or on a JSON object without a `years`
field, the default of 3 years is returned. -/
theorem C7_time_range_clamped (c : ClassifierOutcome) (y : Int) :
    (1 ≤ extract_time_range c ∧ extract_time_range c ≤ 10) ∧
    extract_time_range ClassifierOutcome.failure = 3 ∧
    extract_time_range ClassifierOutcome.noJson = 3 ∧
    extract_time_range (ClassifierOutcome.parsed none) = 3 ∧
    (10 ≤ y → extract_time_range (ClassifierOutcome.parsed (some y)) = 10) ∧
    (y ≤ 1 → extract_time_range (ClassifierOutcome.parsed (some y)) = 1) := by
  refine ⟨?_, rfl, rfl, rfl, ?_, ?_⟩
  · cases c with
    | failure => exact ⟨by norm_num [extract_time_range], by norm_num [extract_time_range]⟩
    | noJson => exact ⟨by norm_num [extract_time_range], by norm_num [extract_time_range]⟩
    | parsed y0 =>
      cases y0 with
      | none => exact ⟨by norm_num [extract_time_range], by norm_num [extract_time_range]⟩
      | some z =>
        constructor
        · simp only [extract_time_range, Option.getD]
          omega
        · simp only [extract_time_range, Option.getD]
          omega
  · intro h
    simp only [extract_time_range, Option.getD]
    omega
  · intro h
    simp only [extract_time_range, Option.getD]
    omega

/-- Witness for C7 at concrete classifier outcomes: an explicit 12 clamps to
10 and an explicit 0 clamps to 1. -/
theorem C7_time_range_clamped_witness :
    extract_time_range (ClassifierOutcome.parsed (some 12)) = 10 ∧
    extract_time_range (ClassifierOutcome.parsed (some 0)) = 1 :=
  ⟨(C7_time_range_clamped (ClassifierOutcome.parsed (some 12)) 12).2.2.2.2.1 (by decide),
   (C7_time_range_clamped (ClassifierOutcome.parsed (some 0)) 0).2.2.2.2.2 (by decide)⟩

/-! ## Claim C2 — catalog/index consistency -/

/-- Claim C2 is refuted by the synthetic initialization document: ingesting
one document with one chunk into a fresh store leaves the chunk-count sum at
1 but the index holds 2 entries, and after a reset the catalog is empty but
the index is not. -/
theorem C2_consistency_counterexample :
    sumChunks (add_report oneChunk freshState "20240105000001" "사업보고서" "에이스전자"
      "20240105" "본문" "공시보고서" []) = 1 ∧
    totalEntries (add_report oneChunk freshState "20240105000001" "사업보고서" "에이스전자"
      "20240105" "본문" "공시보고서" []) = 2 ∧
    (reset_database freshState).1.metadata = [] ∧
    (reset_database freshState).1.index ≠ [] := by decide

/-- Claim C2 amended: after every successful ingestion of a document whose
id is not yet catalogued, the sum of `num_chunks` over all catalog records
equals the total number of vector index entries minus the one synthetic
initialization entry (the off-by-one invariant holds on the fresh store and
is preserved by `add_report`); after `reset_database` the catalog is empty
and the index holds exactly the synthetic initialization entry. -/
theorem C2_consistency_amended (split : String → List String) (st : VSState)
    (rcept_no report_name company_name report_date content report_type : String)
    (kws : List String)
    (hnew : check_report_exists st rcept_no = false)
    (hinv : sumChunks st + 1 = totalEntries st) :
    sumChunks (add_report split st rcept_no report_name company_name report_date
        content report_type kws) + 1 =
      totalEntries (add_report split st rcept_no report_name company_name report_date
        content report_type kws) ∧
    sumChunks freshState + 1 = totalEntries freshState ∧
    (∀ st2 : VSState, (reset_database st2).1.metadata = [] ∧
      (reset_database st2).1.index = [initDoc]) := by
  refine ⟨?_, by decide, fun st2 => ⟨rfl, rfl⟩⟩
  rw [totalEntries_add_report,
    sumChunks_add_report_of_not_exists _ _ _ _ _ _ _ _ _ hnew]
  omega

/-- Witness for the amended C2 on a fresh store and a concrete document. -/
theorem C2_consistency_amended_witness :
    sumChunks (add_report oneChunk freshState "R1" "사업보고서" "에이스전자" "20240105"
        "본문" "공시보고서" []) + 1 =
      totalEntries (add_report oneChunk freshState "R1" "사업보고서" "에이스전자" "20240105"
        "본문" "공시보고서" []) :=
  (C2_consistency_amended oneChunk freshState "R1" "사업보고서" "에이스전자" "20240105"
    "본문" "공시보고서" [] (by decide) (by decide)).1

/-! ## Claim C3 — duplicate put -/

/-- Claim C3 is refuted: calling `add_report` a second time for an already
catalogued id with different content raises nothing and silently replaces
the stored record — afterwards the catalog returns the second content and
still holds a single record. -/
theorem C3_duplicate_counterexample :
    get_report_from_cache (add_report oneChunk
      (add_report oneChunk freshState "R1" "사업보고서" "에이스전자" "20240105" "본문일"
        "공시보고서" [])
      "R1" "사업보고서" "에이스전자" "20240105" "본문이" "공시보고서" []) "R1" =
      some "본문이" ∧
    (add_report oneChunk
      (add_report oneChunk freshState "R1" "사업보고서" "에이스전자" "20240105" "본문일"
        "공시보고서" [])
      "R1" "사업보고서" "에이스전자" "20240105" "본문이" "공시보고서" []).metadata.length = 1 := by
  decide

/-- Claim C3 amended: a second `add_report` for an id already present in the
catalog does not fail; it silently overwrites the catalog record in place
(the record count is unchanged and the stored text becomes the new content)
while appending the new chunk entries to the index, leaving the old vector
entries in place. -/
theorem C3_duplicate_overwrites (split : String → List String) (st : VSState)
    (rcept_no report_name company_name report_date content report_type : String)
    (kws : List String) (v0 : ReportMeta)
    (h : metaLookup st.metadata rcept_no = some v0) :
    (add_report split st rcept_no report_name company_name report_date content
        report_type kws).metadata.length = st.metadata.length ∧
    get_report_from_cache (add_report split st rcept_no report_name company_name
        report_date content report_type kws) rcept_no = some content ∧
    (add_report split st rcept_no report_name company_name report_date content
        report_type kws).index = st.index ++
      chunkDocs rcept_no report_name company_name report_date report_type
        (split content) := by
  refine ⟨length_metaInsert_of_lookup_some _ _ _ _ h, ?_, rfl⟩
  simp [get_report_from_cache, add_report, metaLookup_metaInsert_self]

/-- The catalog record written by the first concrete `add_report` of the C3
duplicate-write witness. -/
def rec1 : ReportMeta :=
  { report_name := "사업보고서", company_name := "에이스전자", date := "20240105"
    report_type := "공시보고서", num_chunks := 1, content_length := "본문일".length
    full_content := "본문일", industry_keywords := [] }

/-- Witness for the amended C3: a concrete duplicate write keeps one record
and stores the new content. -/
theorem C3_duplicate_overwrites_witness :
    (add_report oneChunk
        (add_report oneChunk freshState "R1" "사업보고서" "에이스전자" "20240105" "본문일"
          "공시보고서" [])
        "R1" "사업보고서" "에이스전자" "20240105" "본문이" "공시보고서" []).metadata.length =
      (add_report oneChunk freshState "R1" "사업보고서" "에이스전자" "20240105" "본문일"
        "공시보고서" []).metadata.length ∧
    get_report_from_cache (add_report oneChunk
        (add_report oneChunk freshState "R1" "사업보고서" "에이스전자" "20240105" "본문일"
          "공시보고서" [])
        "R1" "사업보고서" "에이스전자" "20240105" "본문이" "공시보고서" []) "R1" =
      some "본문이" :=
  ⟨(C3_duplicate_overwrites oneChunk
      (add_report oneChunk freshState "R1" "사업보고서" "에이스전자" "20240105" "본문일"
        "공시보고서" [])
      "R1" "사업보고서" "에이스전자" "20240105" "본문이" "공시보고서" [] rec1 (by decide)).1,
   (C3_duplicate_overwrites oneChunk
      (add_report oneChunk freshState "R1" "사업보고서" "에이스전자" "20240105" "본문일"
        "공시보고서" [])
      "R1" "사업보고서" "에이스전자" "20240105" "본문이" "공시보고서" [] rec1 (by decide)).2.1⟩

/-! ## Claim C10 — synthetic initialization entry -/

/-- Claim C10: a vector store created with no prior on-disk index, and the
store after every `reset_database`, holds exactly one synthetic
initialization entry (page content 초기 문서, metadata type init) while the
catalog is empty, so the index is never empty even when the catalog is; a
similarity search without a company filter may return this synthetic entry
among its results. -/
theorem C10_init_entry (st : VSState) :
    freshState.index = [initDoc] ∧
    freshState.metadata = [] ∧
    (reset_database st).1.index = [initDoc] ∧
    (reset_database st).1.metadata = [] ∧
    initDoc.page_content = "초기 문서" ∧
    initDoc.doc_type = "init" ∧
    (reset_database st).1.index ≠ [] ∧
    (initDoc, (0 : Int)) ∈ search_similar_reports
      (fun _ n => ((reset_database st).1.index.map (fun d => (d, (0 : Int)))).take n)
      "질문" none 5 := by
  refine ⟨rfl, rfl, rfl, rfl, rfl, rfl, ?_, ?_⟩
  · show ([initDoc] : List IndexDoc) ≠ []
    decide
  · show (initDoc, (0 : Int)) ∈ search_similar_reports
      (fun _ n => (([initDoc].map (fun d => (d, (0 : Int)))).take n)) "질문" none 5
    decide

/-! ## Claim C5 — retrieval filter correctness -/

/-- Claim C5: with a nonempty company filter, retrieval asks the index for
3 times k nearest entries, keeps exactly the entries whose denormalized
company name equals the filter case-insensitively, and returns at most
k entries. -/
theorem C5_filter_correctness (simSearch : String → Nat → List (IndexDoc × Int))
    (query cn : String) (k : Nat) (h : cn ≠ "") :
    search_similar_reports simSearch query (some cn) k =
      ((simSearch query (k * 3)).filter
        (fun p => pyUpper p.1.company_name == pyUpper cn)).take k ∧
    (∀ p ∈ search_similar_reports simSearch query (some cn) k,
      pyUpper p.1.company_name = pyUpper cn) ∧
    (search_similar_reports simSearch query (some cn) k).length ≤ k := by
  have he : search_similar_reports simSearch query (some cn) k =
      ((simSearch query (k * 3)).filter
        (fun p => pyUpper p.1.company_name == pyUpper cn)).take k := by
    simp [search_similar_reports, h]
  refine ⟨he, ?_, ?_⟩
  · intro p hp
    rw [he] at hp
    have hp2 := List.take_subset _ _ hp
    exact eq_of_beq (List.mem_filter.mp hp2).2
  · rw [he]
    exact List.length_take_le _ _

/-- A concrete two-entry ranking used to witness C5: one chunk of the
filtered company (in different letter case) and one of another company. -/
def simC5 : String → Nat → List (IndexDoc × Int) :=
  fun _ n =>
    ([({ page_content := "청크일", doc_type := "", rcept_no := "R1"
         report_name := "사업보고서", company_name := "Acme전자", report_date := "20240105"
         report_type := "공시보고서", chunk_index := 0, total_chunks := 1 }, (0 : Int)),
      ({ page_content := "청크이", doc_type := "", rcept_no := "R2"
         report_name := "사업보고서", company_name := "다른회사", report_date := "20240106"
         report_type := "공시보고서", chunk_index := 0, total_chunks := 1 }, (1 : Int))]).take n

/-- Witness for C5 at a concrete ranking, filter and k. -/
theorem C5_filter_correctness_witness :
    (∀ p ∈ search_similar_reports simC5 "질문" (some "ACME전자") 1,
      pyUpper p.1.company_name = pyUpper "ACME전자") ∧
    (search_similar_reports simC5 "질문" (some "ACME전자") 1).length ≤ 1 :=
  ⟨(C5_filter_correctness simC5 "질문" "ACME전자" 1 (by decide)).2.1,
   (C5_filter_correctness simC5 "질문" "ACME전자" 1 (by decide)).2.2⟩

/-! ## Claim C8 — brokerage-cache sort order -/

theorem charListLe_total (as bs : List Char) :
    charListLe as bs = true ∨ charListLe bs as = true := by
  induction as generalizing bs with
  | nil => exact Or.inl rfl
  | cons a as ih =>
    cases bs with
    | nil => exact Or.inr rfl
    | cons b bs =>
      simp only [charListLe]
      rcases Nat.lt_trichotomy a.toNat b.toNat with h | h | h
      · simp [h]
      · simp only [h, Nat.lt_irrefl, if_false]
        exact ih bs
      · simp [h, Nat.lt_asymm h]

theorem charListLe_trans (as bs cs : List Char) (h1 : charListLe as bs = true)
    (h2 : charListLe bs cs = true) : charListLe as cs = true := by
  induction as generalizing bs cs with
  | nil => rfl
  | cons a as ih =>
    cases bs with
    | nil => simp [charListLe] at h1
    | cons b bs =>
      cases cs with
      | nil => simp [charListLe] at h2
      | cons c cs =>
        simp only [charListLe] at h1 h2 ⊢
        split_ifs at h1 h2 ⊢ <;>
          first
            | rfl
            | omega
            | exact ih bs cs h1 h2

instance : IsTotal CachedReport dateDesc :=
  ⟨fun a b => charListLe_total (parse_date b.date).data (parse_date a.date).data⟩

instance : IsTrans CachedReport dateDesc :=
  ⟨fun _ _ _ h1 h2 => charListLe_trans _ _ _ h2 h1⟩

/-- Claim C8 is refuted on the unparseable-date clause: with one record
dated `"zz"` (unparseable as a date) and one dated `"24.01.05"`, the find
operation sorts the unparseable date first, not last, because only the
empty string and 날짜미상 are remapped to the lowest key while every other
string is compared verbatim. -/
theorem C8_sort_counterexample :
    (get_naver_reports_from_cache
      [("NAVER_COMPANY_1",
        { report_name := "에이리포트", company_name := "에이스전자", date := "zz"
          report_type := "공시보고서", num_chunks := 1, content_length := 1
          full_content := "가", industry_keywords := [] }),
       ("NAVER_COMPANY_2",
        { report_name := "비리포트", company_name := "에이스전자", date := "24.01.05"
          report_type := "공시보고서", num_chunks := 1, content_length := 1
          full_content := "나", industry_keywords := [] })]
      (some "에이스전자") "NAVER_COMPANY" []).map (fun r => r.date) =
      ["zz", "24.01.05"] := by decide

/-- Claim C8 amended: the find operation returns a permutation of the
matching records sorted descending by a total order on the raw date strings
(lexicographic by code point) in which only the missing dates — the empty
string and the literal 날짜미상 — are remapped to the lowest key
`"00.00.00"`; other unparseable strings are compared verbatim.  The sort is
total (never raises). -/
theorem C8_sort_amended (metadata : List (String × ReportMeta))
    (company_name : Option String) (report_type : String)
    (industry_keywords : List String) :
    List.Sorted dateDesc
      (get_naver_reports_from_cache metadata company_name report_type
        industry_keywords) ∧
    (get_naver_reports_from_cache metadata company_name report_type
        industry_keywords).Perm
      (naverSelect metadata company_name report_type industry_keywords) ∧
    parse_date "" = "00.00.00" ∧
    parse_date "날짜미상" = "00.00.00" ∧
    (∀ d, d ≠ "" → d ≠ "날짜미상" → parse_date d = d) := by
  refine ⟨?_, ?_, rfl, rfl, fun d h1 h2 => by simp [parse_date, h1, h2]⟩
  · show List.Sorted dateDesc
      (if (naverSelect metadata company_name report_type industry_keywords).isEmpty
        then []
        else (naverSelect metadata company_name report_type
          industry_keywords).insertionSort dateDesc)
    by_cases hc : (naverSelect metadata company_name report_type
      industry_keywords).isEmpty
    · simp [hc]
    · simp only [hc]
      simp only [if_false, Bool.false_eq_true]
      exact List.sorted_insertionSort _ _
  · show (if (naverSelect metadata company_name report_type industry_keywords).isEmpty
        then []
        else (naverSelect metadata company_name report_type
          industry_keywords).insertionSort dateDesc).Perm
      (naverSelect metadata company_name report_type industry_keywords)
    by_cases hc : (naverSelect metadata company_name report_type
      industry_keywords).isEmpty
    · simp [hc, List.isEmpty_iff.mp hc]
    · simp only [hc]
      simp only [if_false, Bool.false_eq_true]
      exact List.perm_insertionSort _ _

/-- Witness for the amended C8: concrete sortedness and the verbatim key of
a nonempty, non-missing date string. -/
theorem C8_sort_amended_witness :
    List.Sorted dateDesc
      (get_naver_reports_from_cache [] (some "에이스전자") "NAVER_COMPANY" []) ∧
    parse_date "zz" = "zz" :=
  ⟨(C8_sort_amended [] (some "에이스전자") "NAVER_COMPANY" []).1,
   (C8_sort_amended [] (some "에이스전자") "NAVER_COMPANY" []).2.2.2.2 "zz"
     (by decide) (by decide)⟩

/-! ## Claim C4 — pagination termination -/

theorem getReportsLoop_fetches_le (registry : Nat → PageResponse)
    (rts : List String) (rem : Nat) :
    ∀ page acc f, (getReportsLoop registry rts rem page acc f).2 ≤ f + rem := by
  induction rem with
  | zero =>
    intro page acc f
    simp [getReportsLoop]
  | succ n ih =>
    intro page acc f
    simp only [getReportsLoop]
    split_ifs
    · omega
    · omega
    · have := ih (page + 1) (acc ++ (registry page).list) (f + 1)
      omega
    · omega

theorem getReportsLoop_no_target (registry : Nat → PageResponse) (rts : List String)
    (hpages : ∀ n, pageHasTarget rts (registry n).list = false) (rem : Nat) :
    ∀ page acc f, (∀ x ∈ acc, reportMatches rts x = false) →
      ∀ x ∈ (getReportsLoop registry rts rem page acc f).1,
        reportMatches rts x = false := by
  induction rem with
  | zero =>
    intro page acc f hacc
    simpa [getReportsLoop] using hacc
  | succ n ih =>
    intro page acc f hacc
    have hpage : ∀ x ∈ (registry page).list, reportMatches rts x = false := by
      have := hpages page
      simpa [pageHasTarget, List.any_eq_false] using this
    have hext : ∀ x ∈ acc ++ (registry page).list, reportMatches rts x = false := by
      intro x hx
      rcases List.mem_append.mp hx with hx | hx
      · exact hacc x hx
      · exact hpage x hx
    simp only [getReportsLoop]
    split_ifs with h1 h2 h3
    · exact hacc
    · simp [hpages page] at h3
    · exact ih (page + 1) (acc ++ (registry page).list) (f + 1) hext
    · exact hacc

/-- Claim C4: primary document selection terminates within the configured
10-page limit for every registry behaviour; pagination stops after a single
fetch when the first page already contains a target-category document, is
empty, or has a non-success status; and when no page ever contains a
target-category document the returned candidate set is empty. -/
theorem C4_pagination_termination (registry : Nat → PageResponse)
    (rts : List String)
    (hnone : ∀ n, pageHasTarget rts (registry n).list = false) :
    (∀ reg2 : Nat → PageResponse, (get_reports reg2 rts).2 ≤ max_pages) ∧
    (get_reports registry rts).1 = [] ∧
    (∀ reg2 : Nat → PageResponse, (reg2 1).status = "000" →
      (reg2 1).list.isEmpty = false → pageHasTarget rts (reg2 1).list = true →
      (get_reports reg2 rts).2 = 1) ∧
    (∀ reg2 : Nat → PageResponse, (reg2 1).status = "000" → (reg2 1).list = [] →
      (get_reports reg2 rts).2 = 1) ∧
    (∀ reg2 : Nat → PageResponse, ¬ (reg2 1).status = "000" →
      (get_reports reg2 rts).2 = 1) := by
  have hten : max_pages = 9 + 1 := rfl
  refine ⟨?_, ?_, ?_, ?_, ?_⟩
  · intro reg2
    have := getReportsLoop_fetches_le reg2 rts max_pages 1 [] 0
    simpa [get_reports] using this
  · have hall := getReportsLoop_no_target registry rts hnone max_pages 1 [] 0
      (by intro x hx; simp at hx)
    simp only [get_reports]
    rw [List.filter_eq_nil_iff]
    intro a ha
    simp [hall a ha]
  · intro reg2 hs hl ht
    simp [get_reports, hten, getReportsLoop, hs, hl, ht]
  · intro reg2 hs hl
    simp [get_reports, hten, getReportsLoop, hs, hl]
  · intro reg2 hs
    simp [get_reports, hten, getReportsLoop, hs]

/-- A registry whose every page carries one report of a non-target type
(witness registry for C4). -/
def regC4 : Nat → PageResponse :=
  fun _ =>
    { status := "000"
      list := [{ report_nm := "기타공시", rcept_dt := "20240101", rcept_no := "R9" }] }

/-- Witness for C4: on the concrete never-matching registry the candidate
set is empty and at most 10 pages are fetched. -/
theorem C4_pagination_termination_witness :
    (get_reports regC4 ["사업보고서"]).1 = [] ∧
    (get_reports regC4 ["사업보고서"]).2 ≤ max_pages :=
  ⟨(C4_pagination_termination regC4 ["사업보고서"]
      (fun n => by
        show pageHasTarget ["사업보고서"]
          [{ report_nm := "기타공시", rcept_dt := "20240101", rcept_no := "R9" }] = false
        decide)).2.1,
   (C4_pagination_termination regC4 ["사업보고서"]
      (fun n => by
        show pageHasTarget ["사업보고서"]
          [{ report_nm := "기타공시", rcept_dt := "20240101", rcept_no := "R9" }] = false
        decide)).1 regC4⟩

/-! ## Claim C1 — cache idempotence of the fetch-if-miss path -/

theorem lookup_none_of_not_exists (st : VSState) (rcept_no : String)
    (h : check_report_exists st rcept_no = false) :
    metaLookup st.metadata rcept_no = none := by
  cases hx : metaLookup st.metadata rcept_no with
  | none => rfl
  | some v => simp [check_report_exists, hx] at h

/-- Claim C1: for a document id not yet catalogued, with fixed registry
contents and the metadata arguments supplied, calling `download_report`
twice in sequence performs exactly one network fetch and one catalog/index
write in total: the first call fetches, extracts and stores the document,
the second call performs no fetch and no write, returns the identical
stored text, and leaves the state unchanged. -/
theorem C1_cache_idempotence (split : String → List String)
    (fetchExtract : String → String) (st : VSState)
    (rcept_no company_name report_name report_date : String)
    (hmiss : check_report_exists st rcept_no = false)
    (htext : fetchExtract rcept_no ≠ "")
    (hc : company_name ≠ "") (hn : report_name ≠ "") (hd : report_date ≠ "") :
    (download_report split fetchExtract st rcept_no company_name report_name
      report_date).fetches = 1 ∧
    (download_report split fetchExtract st rcept_no company_name report_name
      report_date).writes = 1 ∧
    (download_report split fetchExtract st rcept_no company_name report_name
      report_date).text = fetchExtract rcept_no ∧
    check_report_exists (download_report split fetchExtract st rcept_no company_name
      report_name report_date).state rcept_no = true ∧
    (download_report split fetchExtract
      (download_report split fetchExtract st rcept_no company_name report_name
        report_date).state
      rcept_no company_name report_name report_date).fetches = 0 ∧
    (download_report split fetchExtract
      (download_report split fetchExtract st rcept_no company_name report_name
        report_date).state
      rcept_no company_name report_name report_date).writes = 0 ∧
    (download_report split fetchExtract
      (download_report split fetchExtract st rcept_no company_name report_name
        report_date).state
      rcept_no company_name report_name report_date).text =
      (download_report split fetchExtract st rcept_no company_name report_name
        report_date).text ∧
    (download_report split fetchExtract
      (download_report split fetchExtract st rcept_no company_name report_name
        report_date).state
      rcept_no company_name report_name report_date).state =
      (download_report split fetchExtract st rcept_no company_name report_name
        report_date).state := by
  have h1 : download_report split fetchExtract st rcept_no company_name report_name
      report_date =
      downloadMiss split fetchExtract st rcept_no company_name report_name
        report_date := by
    simp [download_report, hmiss]
  have h2 : downloadMiss split fetchExtract st rcept_no company_name report_name
      report_date =
      { text := fetchExtract rcept_no
        state := add_report split st rcept_no report_name company_name report_date
          (fetchExtract rcept_no) "공시보고서" []
        fetches := 1, writes := 1 } := by
    rw [downloadMiss, if_pos ⟨htext, hc, hn, hd⟩]
  have hfirst := h1.trans h2
  have hlook : metaLookup (add_report split st rcept_no report_name company_name
      report_date (fetchExtract rcept_no) "공시보고서" []).metadata rcept_no =
      some { report_name := report_name, company_name := company_name
             date := report_date, report_type := "공시보고서"
             num_chunks := (split (fetchExtract rcept_no)).length
             content_length := (fetchExtract rcept_no).length
             full_content := fetchExtract rcept_no, industry_keywords := [] } := by
    simp [add_report, metaLookup_metaInsert_self]
  have hex : check_report_exists (add_report split st rcept_no report_name
      company_name report_date (fetchExtract rcept_no) "공시보고서" []) rcept_no =
      true := by
    simp [check_report_exists, hlook]
  have hget : get_report_from_cache (add_report split st rcept_no report_name
      company_name report_date (fetchExtract rcept_no) "공시보고서" []) rcept_no =
      some (fetchExtract rcept_no) := by
    simp [get_report_from_cache, hlook]
  have h3 : download_report split fetchExtract
      (add_report split st rcept_no report_name company_name report_date
        (fetchExtract rcept_no) "공시보고서" [])
      rcept_no company_name report_name report_date =
      { text := fetchExtract rcept_no
        state := add_report split st rcept_no report_name company_name report_date
          (fetchExtract rcept_no) "공시보고서" []
        fetches := 0, writes := 0 } := by
    simp [download_report, hex, hget, htext]
  refine ⟨?_, ?_, ?_, ?_, ?_, ?_, ?_, ?_⟩ <;>
    simp [hfirst, h3, hex]

/-- A fixed registry-and-extraction behaviour for the C1 witness. -/
def feC1 : String → String := fun _ => "본문내용"

/-- Witness for C1 at concrete inputs: first call fetches once, second call
fetches zero times and returns the identical text. -/
theorem C1_cache_idempotence_witness :
    (download_report oneChunk feC1 freshState "R1" "에이스전자" "사업보고서"
      "20240105").fetches = 1 ∧
    (download_report oneChunk feC1
      (download_report oneChunk feC1 freshState "R1" "에이스전자" "사업보고서"
        "20240105").state
      "R1" "에이스전자" "사업보고서" "20240105").fetches = 0 ∧
    (download_report oneChunk feC1
      (download_report oneChunk feC1 freshState "R1" "에이스전자" "사업보고서"
        "20240105").state
      "R1" "에이스전자" "사업보고서" "20240105").text =
      (download_report oneChunk feC1 freshState "R1" "에이스전자" "사업보고서"
        "20240105").text :=
  ⟨(C1_cache_idempotence oneChunk feC1 freshState "R1" "에이스전자" "사업보고서"
      "20240105" (by decide) (by decide) (by decide) (by decide) (by decide)).1,
   (C1_cache_idempotence oneChunk feC1 freshState "R1" "에이스전자" "사업보고서"
      "20240105" (by decide) (by decide) (by decide) (by decide)
      (by decide)).2.2.2.2.1,
   (C1_cache_idempotence oneChunk feC1 freshState "R1" "에이스전자" "사업보고서"
      "20240105" (by decide) (by decide) (by decide) (by decide)
      (by decide)).2.2.2.2.2.2.1⟩

/-! ## Claim C9 — identity resolution -/

theorem mem_dedupAdd (acc : List CorpEntry) (x c : CorpEntry)
    (h : c ∈ dedupAdd acc x) : c ∈ acc ∨ c = x := by
  unfold dedupAdd at h
  split_ifs at h
  · exact Or.inl h
  · rcases List.mem_append.mp h with h2 | h2
    · exact Or.inl h2
    · exact Or.inr (List.mem_singleton.mp h2)

theorem foldl_dedup_mem (p : CorpEntry → Bool) (reg : List CorpEntry) :
    ∀ acc c, c ∈ reg.foldl (fun a x => if p x then dedupAdd a x else a) acc →
      c ∈ acc ∨ (c ∈ reg ∧ p c = true) := by
  induction reg with
  | nil =>
    intro acc c h
    exact Or.inl h
  | cons x xs ih =>
    intro acc c h
    rw [List.foldl_cons] at h
    rcases ih _ c h with hmem | hx
    · by_cases hp : p x
      · rw [if_pos hp] at hmem
        rcases mem_dedupAdd _ _ _ hmem with h1 | h1
        · exact Or.inl h1
        · subst h1
          exact Or.inr ⟨List.mem_cons_self _ _, hp⟩
      · rw [if_neg hp] at hmem
        exact Or.inl hmem
    · exact Or.inr ⟨List.mem_cons_of_mem _ hx.1, hx.2⟩

theorem mem_exactMatchesFor (reg : List CorpEntry) (v : String) (c : CorpEntry)
    (h : c ∈ exactMatchesFor reg v) :
    c ∈ reg ∧ pyUpper c.corp_name = pyUpper v := by
  have := foldl_dedup_mem (fun x => pyUpper x.corp_name == pyUpper v) reg [] c h
  rcases this with h1 | h1
  · simp at h1
  · exact ⟨h1.1, eq_of_beq h1.2⟩

theorem mem_containsSearch (reg : List CorpEntry) (vars : List String)
    (c : CorpEntry) (h : c ∈ containsSearch reg vars) :
    c ∈ reg ∧ ∃ v ∈ vars, strContains (pyUpper c.corp_name) (pyUpper v) = true := by
  suffices hgen : ∀ acc, c ∈ vars.foldl (fun acc2 v =>
      reg.foldl (fun a x =>
        if strContains (pyUpper x.corp_name) (pyUpper v) then dedupAdd a x else a)
        acc2) acc →
      c ∈ acc ∨ (c ∈ reg ∧ ∃ v ∈ vars, strContains (pyUpper c.corp_name) (pyUpper v) = true) by
    rcases hgen [] h with h1 | h1
    · simp at h1
    · exact h1
  clear h
  induction vars with
  | nil =>
    intro acc h
    exact Or.inl h
  | cons v vs ih =>
    intro acc h
    rw [List.foldl_cons] at h
    rcases ih _ h with hmem | hx
    · rcases foldl_dedup_mem (fun x => strContains (pyUpper x.corp_name) (pyUpper v))
        reg acc c hmem with h1 | h1
      · exact Or.inl h1
      · exact Or.inr ⟨h1.1, v, List.mem_cons_self _ _, h1.2⟩
    · exact Or.inr ⟨hx.1, hx.2.imp (fun v2 hv2 => ⟨List.mem_cons_of_mem _ hv2.1, hv2.2⟩)⟩

theorem pickPreferTicker_ticker (l : List CorpEntry)
    (h : ∃ c ∈ l, hasTicker c = true) :
    ∃ c, pickPreferTicker l = some c ∧ hasTicker c = true := by
  cases hf : l.filter hasTicker with
  | nil =>
    obtain ⟨c, hc, htick⟩ := h
    have : c ∈ l.filter hasTicker := List.mem_filter.mpr ⟨hc, htick⟩
    rw [hf] at this
    simp at this
  | cons r rs =>
    refine ⟨r, ?_, ?_⟩
    · simp [pickPreferTicker, hf]
    · have : r ∈ l.filter hasTicker := by
        rw [hf]
        exact List.mem_cons_self _ _
      exact (List.mem_filter.mp this).2

theorem pickPreferTicker_isSome (l : List CorpEntry) (h : l ≠ []) :
    (pickPreferTicker l).isSome = true := by
  cases hf : l.filter hasTicker with
  | nil =>
    cases l with
    | nil => exact absurd rfl h
    | cons a as => simp [pickPreferTicker, hf]
  | cons r rs => simp [pickPreferTicker, hf]

/-- Claim C9: identity resolution tries the variants in order, stopping at
the first variant whose exact case-insensitive registry matches are
nonempty; every collected exact match comes from the registry and matches
the variant case-insensitively; selection prefers an entry carrying a
nonblank ticker and otherwise takes the first match; when no variant has an
exact match the resolution falls back to substring-containment matches
(collected over all variants) with the same ticker-preference tie-break;
and when both stages are empty the resolution yields none, which the
session reports as a company-not-found failure. -/
theorem C9_identity_resolution (registry : List CorpEntry) (v : String)
    (rest vars : List String) (l : List CorpEntry) (env : SessionEnv)
    (st : VSState) (q : String) :
    (∀ c ∈ exactMatchesFor registry v,
      c ∈ registry ∧ pyUpper c.corp_name = pyUpper v) ∧
    (exactMatchesFor registry v = [] →
      exactSearch registry (v :: rest) = exactSearch registry rest) ∧
    (exactMatchesFor registry v ≠ [] →
      exactSearch registry (v :: rest) = exactMatchesFor registry v) ∧
    ((∃ c ∈ l, hasTicker c = true) →
      ∃ c, pickPreferTicker l = some c ∧ hasTicker c = true) ∧
    (l ≠ [] → (pickPreferTicker l).isSome = true) ∧
    (exactSearch registry vars ≠ [] →
      get_corp_code registry vars = pickPreferTicker (exactSearch registry vars)) ∧
    (exactSearch registry vars = [] → containsSearch registry vars ≠ [] →
      get_corp_code registry vars = pickPreferTicker (containsSearch registry vars)) ∧
    (exactSearch registry vars = [] → containsSearch registry vars = [] →
      get_corp_code registry vars = none) ∧
    (∀ c ∈ containsSearch registry vars, c ∈ registry ∧
      ∃ v2 ∈ vars, strContains (pyUpper c.corp_name) (pyUpper v2) = true) ∧
    (env.corp = none →
      (analyze_company env st q).1.success = false ∧
      (analyze_company env st q).1.error = some "회사를 찾을 수 없습니다.") := by
  refine ⟨fun c hc => mem_exactMatchesFor registry v c hc, ?_, ?_, ?_, ?_, ?_, ?_, ?_,
    fun c hc => mem_containsSearch registry vars c hc, ?_⟩
  · intro h
    simp [exactSearch, h]
  · intro h
    simp [exactSearch, List.isEmpty_iff, h]
  · exact pickPreferTicker_ticker l
  · exact pickPreferTicker_isSome l
  · intro h
    simp [get_corp_code, List.isEmpty_iff, h]
  · intro h1 h2
    simp [get_corp_code, List.isEmpty_iff, h1, h2]
  · intro h1 h2
    simp [get_corp_code, List.isEmpty_iff, h1, h2]
  · intro h
    constructor <;> simp [analyze_company, h]

/-- A two-entry registry for the C9 witness: the listed company 에이스전자
(with ticker) and an unlisted namesake (without). -/
def regC9 : List CorpEntry :=
  [{ corp_name := "에이스전자", corp_code := "00000001", stock_code := "" },
   { corp_name := "ACE전자", corp_code := "00000002", stock_code := "005930" }]

/-- Witness for C9 at concrete inputs: the first variant with an exact match
stops the search, the ticker-carrying entry is preferred, and a session with
an unresolved company fails with the company-not-found error. -/
theorem C9_identity_resolution_witness :
    exactSearch regC9 ["ace전자", "에이스전자"] = exactMatchesFor regC9 "ace전자" ∧
    (∃ c, pickPreferTicker regC9 = some c ∧ hasTicker c = true) ∧
    (analyze_company
      { corp := none, time_range := ClassifierOutcome.failure
        registry := fun _ => { status := "000", list := [] }
        report_types := [], split := oneChunk, fetchExtract := fun _ => ""
        additional := [], industry_keywords := []
        crawler_company := Except.error (), crawler_industry := Except.error ()
        urlHash := fun _ => "", simSearch := fun _ _ _ => []
        llm_rag := Except.error () }
      freshState "질문").1.success = false :=
  ⟨(C9_identity_resolution regC9 "ace전자" ["에이스전자"] [] []
      { corp := none, time_range := ClassifierOutcome.failure
        registry := fun _ => { status := "000", list := [] }
        report_types := [], split := oneChunk, fetchExtract := fun _ => ""
        additional := [], industry_keywords := []
        crawler_company := Except.error (), crawler_industry := Except.error ()
        urlHash := fun _ => "", simSearch := fun _ _ _ => []
        llm_rag := Except.error () } freshState "질문").2.2.1 (by decide),
   (C9_identity_resolution regC9 "ace전자" [] [] regC9
      { corp := none, time_range := ClassifierOutcome.failure
        registry := fun _ => { status := "000", list := [] }
        report_types := [], split := oneChunk, fetchExtract := fun _ => ""
        additional := [], industry_keywords := []
        crawler_company := Except.error (), crawler_industry := Except.error ()
        urlHash := fun _ => "", simSearch := fun _ _ _ => []
        llm_rag := Except.error () } freshState "질문").2.2.2.1
      ⟨{ corp_name := "ACE전자", corp_code := "00000002", stock_code := "005930" },
        by decide, by decide⟩,
   ((C9_identity_resolution regC9 "ace전자" [] [] []
      { corp := none, time_range := ClassifierOutcome.failure
        registry := fun _ => { status := "000", list := [] }
        report_types := [], split := oneChunk, fetchExtract := fun _ => ""
        additional := [], industry_keywords := []
        crawler_company := Except.error (), crawler_industry := Except.error ()
        urlHash := fun _ => "", simSearch := fun _ _ _ => []
        llm_rag := Except.error () } freshState "질문").2.2.2.2.2.2.2.2.2
      rfl).1⟩

/-! ## Claim C6 — brokerage-source failure tolerance -/

/-- A catalog record of one cached brokerage report on 에이스전자 (used to
pre-populate the store in the C6 counterexample). -/
def nvMeta (i : Nat) : ReportMeta :=
  { report_name := "종목리포트", company_name := "에이스전자"
    date := "24.01.0" ++ toString i, report_type := "공시보고서", num_chunks := 1
    content_length := 2, full_content := "내용", industry_keywords := [] }

/-- A store whose catalog already holds three brokerage company reports on
에이스전자. -/
def stC6 : VSState :=
  { metadata := [("NAVER_COMPANY_1", nvMeta 1), ("NAVER_COMPANY_2", nvMeta 2),
      ("NAVER_COMPANY_3", nvMeta 3)]
    index := [initDoc] }

/-- The resolved company of the C6 sessions. -/
def corpC6 : CorpEntry :=
  { corp_name := "에이스전자", corp_code := "00126380", stock_code := "005930" }

/-- The single listed report of the C6 sessions. -/
def latestC6 : DartReport :=
  { report_nm := "사업보고서 2023", rcept_dt := "20240101", rcept_no := "R1" }

/-- A session environment in which both brokerage crawler calls raise. -/
def envC6 : SessionEnv :=
  { corp := some corpC6
    time_range := ClassifierOutcome.failure
    registry := fun n =>
      if n = 1 then { status := "000", list := [latestC6] }
      else { status := "000", list := [] }
    report_types := ["사업보고서"]
    split := oneChunk
    fetchExtract := fun _ => "본문내용"
    additional := []
    industry_keywords := ["반도체"]
    crawler_company := Except.error ()
    crawler_industry := Except.error ()
    urlHash := fun _ => "H1"
    simSearch := fun _ _ _ => []
    llm_rag := Except.ok "분석결과" }

/-- Claim C6 is refuted as universally stated: in a session whose brokerage
source raises on every call but whose catalog already holds three cached
company reports, the session succeeds with a nonempty brokerage-report list
(served from the cache), so the empty-lists clause fails. -/
theorem C6_crawler_failure_counterexample :
    envC6.crawler_company = Except.error () ∧
    envC6.crawler_industry = Except.error () ∧
    (analyze_company envC6 stC6 "질문").1.success = true ∧
    (analyze_company envC6 stC6 "질문").1.naver_company ≠ [] := by
  refine ⟨rfl, rfl, ?_, ?_⟩ <;> decide

/-- Claim C6 amended: in a session that passes its fatal stages (company
resolved, reports found, document text nonempty) and whose catalog holds
fewer than 3 cached brokerage company reports and fewer than 2 cached
industry reports (so neither cache path is taken), a brokerage source that
raises on every call still yields a completed session with success true, an
analysis text present, and empty brokerage-report lists in the result; the
crawler failures are caught at their stage and never abort the session. -/
theorem C6_crawler_failure_amended (env : SessionEnv) (st : VSState) (q : String)
    (corp : CorpEntry) (latest : DartReport) (rest : List DartReport)
    (hcorp : env.corp = some corp)
    (hrep : (get_reports env.registry env.report_types).1 = latest :: rest)
    (hdl : (download_report env.split env.fetchExtract st latest.rcept_no
      corp.corp_name latest.report_nm latest.rcept_dt).text ≠ "")
    (hcc : (get_naver_reports_from_cache
      (download_report env.split env.fetchExtract st latest.rcept_no corp.corp_name
        latest.report_nm latest.rcept_dt).state.metadata
      (some corp.corp_name) "NAVER_COMPANY" []).length < 3)
    (hci : (get_naver_reports_from_cache
      (download_report env.split env.fetchExtract st latest.rcept_no corp.corp_name
        latest.report_nm latest.rcept_dt).state.metadata
      none "NAVER_INDUSTRY" env.industry_keywords).length < 2)
    (hc1 : env.crawler_company = Except.error ())
    (hc2 : env.crawler_industry = Except.error ()) :
    (analyze_company env st q).1.success = true ∧
    (analyze_company env st q).1.analysis.isSome = true ∧
    (analyze_company env st q).1.naver_company = [] ∧
    (analyze_company env st q).1.naver_industry = [] := by
  simp only [analyze_company, hcorp, hrep]
  rw [if_neg hdl]
  rw [if_neg (show ¬ 3 ≤ (get_naver_reports_from_cache
      (download_report env.split env.fetchExtract st latest.rcept_no corp.corp_name
        latest.report_nm latest.rcept_dt).state.metadata
      (some corp.corp_name) "NAVER_COMPANY" []).length by omega)]
  rw [hc1]
  rw [if_neg (show ¬ 2 ≤ (get_naver_reports_from_cache
      (download_report env.split env.fetchExtract st latest.rcept_no corp.corp_name
        latest.report_nm latest.rcept_dt).state.metadata
      none "NAVER_INDUSTRY" env.industry_keywords).length by omega)]
  rw [hc2]
  simp

/-- Witness for the amended C6 on a fresh store: the session succeeds with
empty brokerage lists although both crawler calls raise. -/
theorem C6_crawler_failure_amended_witness :
    (analyze_company envC6 freshState "질문").1.success = true ∧
    (analyze_company envC6 freshState "질문").1.naver_company = [] :=
  ⟨(C6_crawler_failure_amended envC6 freshState "질문" corpC6 latestC6 []
      rfl (by decide) (by decide) (by decide) (by decide) rfl rfl).1,
   (C6_crawler_failure_amended envC6 freshState "질문" corpC6 latestC6 []
      rfl (by decide) (by decide) (by decide) (by decide) rfl rfl).2.2.1⟩

end RagPipeline
